import Mathlib

/-!
# Midnight Corruption: the corruption state machine

A shallow embedding of `scripts/midnight-corruption.js`: the level/die table, the state read
from an actor flag, the roll-driven level advance, the manual adjustment, the minor mutation
entry and the major mutation table, followed by the properties proved about them.

Modelling conventions.

* Numbers. A corruption level is an integer-valued JavaScript number, modelled by `Int`
  (doubles and integers agree on every integer of magnitude below `2 ^ 53`). `JSNum` adds the
  one non-integer value the source tests for explicitly, `NaN`.
* `null` and `undefined` are kept apart (`Die.null`, `Die.undefined`): a lookup of a key the
  table does not have is `undefined`, the literal `null` is `null`.
* Effects. The asynchronous methods are total functions returning a record of what they did:
  which die formulas were handed to `Roll`, which states were handed to `setActorState`,
  which notification was raised, and what was returned. The random source is a parameter.
* The chat card markup, the tracker re-render and the dialogs are not modelled.
-/

namespace MidnightCorruption

/-! ## Values -/

/-- A JavaScript number as the tracker stores it: `NaN` or an integer-valued number. -/
inductive JSNum where
  | nan
  | int (z : Int)
deriving DecidableEq, Repr

/-- The content of a `die` slot: `undefined`, `null`, or a string (a roll formula). -/
inductive Die where
  | undefined
  | null
  | formula (s : String)
deriving DecidableEq, Repr

/-- JavaScript truthiness of a die slot: only a non-empty string is truthy. -/
def Die.truthy : Die → Bool
  | .formula s => decide (s ≠ "")
  | _ => false

/-- The JavaScript operator `a || b` on die slots. -/
def Die.orElse (a b : Die) : Die :=
  if a.truthy then a else b

/-- One record of `majorMutations`: `{ id, name, notes }`. -/
structure MajorMutation where
  id : Int
  name : String
  notes : String
deriving DecidableEq, Repr

/-- The object kept under the flag `midnight-corruption.state`. A field that is `undefined`
or `null` is `none` (for `die` the two are told apart by `Die`). -/
structure Stored where
  level : Option JSNum
  die : Die
  minorMutations : Option (List String)
  majorMutations : Option (List MajorMutation)
deriving DecidableEq, Repr

/-- An actor: its name and the value `actor.getFlag(MC.MODULE_ID, "state")` yields,
`none` when the flag was never set. -/
structure Actor where
  name : String
  flag : Option Stored
deriving DecidableEq, Repr

/-- The state object `{ level, die, minorMutations, majorMutations }` the methods work on. -/
structure State where
  level : Int
  die : Die
  minorMutations : List String
  majorMutations : List MajorMutation
deriving DecidableEq, Repr

/-! ## Constants -/

/-- The table `MC.LEVEL_DIE_MAP`, read as `MC.LEVEL_DIE_MAP[level]`: a key that is not in the
object literal yields `undefined`. -/
def LEVEL_DIE_MAP (level : Int) : Die :=
  if level = 0 then .formula "1d4"
  else if level = 1 then .formula "1d6"
  else if level = 2 then .formula "1d8"
  else if level = 3 then .formula "1d10"
  else if level = 4 then .formula "1d20"
  else .undefined

/-! ## Reading the state -/

/-- The empty object `{}` that stands in for a missing flag. -/
def Stored.empty : Stored :=
  { level := none, die := .undefined, minorMutations := none, majorMutations := none }

/-- The method `getActorState(actor)`: the stored state with its defaults filled in. -/
def getActorState (actor : Actor) : State :=
  let stored := actor.flag.getD Stored.empty
  let level : Int :=
    match stored.level.getD (.int 0) with
    | .nan => 0
    | .int z => z
  let die := (stored.die.orElse (LEVEL_DIE_MAP level)).orElse .null
  let minorMutations := stored.minorMutations.getD []
  let majorMutations := stored.majorMutations.getD []
  { level := level, die := die, minorMutations := minorMutations,
    majorMutations := majorMutations }

/-! ## Level advance -/

/-- The method `upgradeLevel(state)`. -/
def upgradeLevel (state : State) : State :=
  if state.level ≥ 5 then state
  else
    let newLevel := state.level + 1
    let newDie := if newLevel < 5 then LEVEL_DIE_MAP newLevel else Die.null
    { state with level := newLevel, die := newDie }

/-- A call of `ui.notifications.warn` or `ui.notifications.info`. -/
inductive Notice where
  | warn (msg : String)
  | info (msg : String)
deriving DecidableEq, Repr

/-- What one call of `rollForActor` did. `rolled` lists the formulas handed to `new Roll`,
`written` the states handed to `setActorState`, `returned` is the `{ roll, state }` object
(its roll total and state), `none` for a bare `return`. `levelChanged` and `mutationPrompt`
are the values of the local variables of those names when the method ends. -/
structure CheckResult where
  notice : Option Notice
  rolled : List Die
  levelChanged : Bool
  mutationPrompt : String
  written : List State
  returned : Option (Int × State)
deriving DecidableEq, Repr

/-- The method `rollForActor(actor)`. `rng formula` is the total of `new Roll(formula)`. -/
def rollForActor (rng : Die → Int) (actor : Option Actor) : CheckResult :=
  match actor with
  | none =>
    { notice := some (.warn "Midnight Corruption: No actor provided."), rolled := [],
      levelChanged := false, mutationPrompt := "", written := [], returned := none }
  | some actor =>
    let state := getActorState actor
    if state.level ≥ 5 ∨ state.die.truthy = false then
      { notice := some (.info (actor.name ++ " has already succumbed to Midnight Corruption.")),
        rolled := [], levelChanged := false, mutationPrompt := "", written := [],
        returned := none }
    else
      let total := rng state.die
      let oldLevel := state.level
      if total = 1 then
        let upgraded := upgradeLevel state
        let levelChanged := decide (upgraded.level ≠ oldLevel)
        if levelChanged then
          let mutationPrompt :=
            if upgraded.level = 2 then "Minor mutation triggered (cosmetic)."
            else if upgraded.level = 3 then "Major mutation + mental quirk triggered."
            else if upgraded.level = 4 then "Additional major mutation; mental state worsens."
            else if upgraded.level = 5 then
              "Subject succumbs to Midnight Corruption and becomes Warped (dead)."
            else ""
          { notice := none, rolled := [state.die], levelChanged := levelChanged,
            mutationPrompt := mutationPrompt, written := [upgraded],
            returned := some (total, upgraded) }
        else
          { notice := none, rolled := [state.die], levelChanged := levelChanged,
            mutationPrompt := "", written := [], returned := some (total, upgraded) }
      else
        { notice := none, rolled := [state.die], levelChanged := false, mutationPrompt := "",
          written := [], returned := some (total, state) }

/-! ## Manual adjustment -/

/-- Modelled from the spec: `Math.clamped` is a helper of the host application, absent from
the repository; the spec reads it as `clamp(value, 0, 5)`, the value forced into the closed
interval from `min` to `max`. -/
def Math.clamped (num min max : Int) : Int :=
  Min.min max (Max.max num min)

/-- The method `adjustLevel(actor, delta)`: the list of states handed to `setActorState`. -/
def adjustLevel (actor : Option Actor) (delta : Int) : List State :=
  match actor with
  | none => []
  | some actor =>
    let state := getActorState actor
    let newLevel := Math.clamped (state.level + delta) 0 5
    let state := { state with level := newLevel }
    let state := { state with die := if newLevel < 5 then LEVEL_DIE_MAP newLevel else Die.null }
    [state]

/-! ## Minor mutations -/

/-- The characters `String.prototype.trim` strips: the ECMAScript white space and line
terminator code points. -/
def isTrimChar (c : Char) : Bool :=
  c.toNat = 0x09 || c.toNat = 0x0A || c.toNat = 0x0B || c.toNat = 0x0C || c.toNat = 0x0D ||
  c.toNat = 0x20 || c.toNat = 0xA0 || c.toNat = 0x1680 ||
  (0x2000 ≤ c.toNat && c.toNat ≤ 0x200A) ||
  c.toNat = 0x2028 || c.toNat = 0x2029 || c.toNat = 0x202F || c.toNat = 0x205F ||
  c.toNat = 0x3000 || c.toNat = 0xFEFF

/-- Trimming on character lists: drop the leading and the trailing run of trim characters. -/
def trimChars (cs : List Char) : List Char :=
  ((cs.dropWhile isTrimChar).reverse.dropWhile isTrimChar).reverse

/-- The method `text.trim()`. -/
def trim (text : String) : String :=
  ⟨trimChars text.data⟩

/-- The error kinds the specification names. The source has no `throw`; the type is here so
that a failure can be stated at all. -/
inductive MCError where
  | ValidationError
  | InvalidSubject
deriving DecidableEq, Repr

/-- The method `addMinorMutation(actor, text)`: `.ok written` when the call completes, with
the list of states handed to `setActorState`. A `text` that is `null` or `undefined` is
`none`; `text?.trim()` is then `undefined`, which is falsy like the empty string. -/
def addMinorMutation (actor : Option Actor) (text : Option String) :
    Except MCError (List State) :=
  match actor, text with
  | none, _ => .ok []
  | some _, none => .ok []
  | some actor, some text =>
    if trim text = "" then .ok []
    else
      let state := getActorState actor
      let state := { state with minorMutations := state.minorMutations ++ [trim text] }
      .ok [state]

/-! ## Major mutation table -/

/-- An entry of the major mutation table. -/
structure Entry where
  name : String
  description : String
deriving DecidableEq, Repr

/-- The local object `table` of `majorMutationEntry`, read as `table[id]`: `none` is
`undefined`. The key of a number that is not one of 1 to 12 is not a key of the table. -/
def majorMutationTable (id : JSNum) : Option Entry :=
  match id with
  | .nan => none
  | .int z =>
    if z = 1 then some
      { name := "Crystalline Armor",
        description := "Parts of the body are encrusted in violet crystal, hardening the flesh." }
    else if z = 2 then some
      { name := "Nebula Lash",
        description :=
          "A limb or growth becomes a lash-like appendage, suggestive of unnatural reach." }
    else if z = 3 then some
      { name := "Extra Eyes / Sensory Nodes",
        description := "Additional eyes or crystalline sensory nodes emerge along the skin." }
    else if z = 4 then some
      { name := "Warped Locomotion",
        description :=
          "The way the body moves changes: reversed joints, extra limbs, or partial hovering." }
    else if z = 5 then some
      { name := "Nebula Pulse",
        description :=
          "The body emits faint, periodic pulses of violet energy that disturb the air." }
    else if z = 6 then some
      { name := "Voracious Maw",
        description := "A secondary mouth, mandibles, or maw opens where there was none before." }
    else if z = 7 then some
      { name := "Echoed Voice",
        description :=
          "The voice fractures into layered tones, echoing with subtle Nebula resonance." }
    else if z = 8 then some
      { name := "Phase-Shifted Flesh",
        description :=
          "Portions of the body flicker between solidity and an insubstantial state." }
    else if z = 9 then some
      { name := "Living Crystal Growth",
        description := "Clusters of Starshard-like crystals sprout, pulsing as though breathing." }
    else if z = 10 then some
      { name := "Nebula-Thickened Blood",
        description := "Blood becomes viscous and faintly luminous, resisting normal flow." }
    else if z = 11 then some
      { name := "Reality Glitch Aura",
        description := "Subtle spatial and visual distortions manifest around the afflicted." }
    else if z = 12 then some
      { name := "Warped Mind Manifest",
        description :=
          "The mind’s corruption takes on a visible form: third eye, halo, or shifting shadow." }
    else none

/-- The fallback object of `majorMutationEntry`. -/
def fallbackEntry : Entry :=
  { name := "Indescribable Mutation",
    description := "A mutation beyond easy description manifests upon the subject." }

/-- The method `majorMutationEntry(id)`: `table[id] || fallback` (an entry is an object,
hence truthy). -/
def majorMutationEntry (id : JSNum) : Entry :=
  (majorMutationTable id).getD fallbackEntry

/-! ## The die of a level -/

/-- The die `getActorState` derives from a level when nothing usable is stored:
`MC.LEVEL_DIE_MAP[level] || null`. -/
def dieOfLevel (level : Int) : Die :=
  (LEVEL_DIE_MAP level).orElse .null

/-- The die of a state is the one derived from its level. -/
def Consistent (state : State) : Prop :=
  state.die = dieOfLevel state.level

instance (state : State) : Decidable (Consistent state) :=
  inferInstanceAs (Decidable (state.die = dieOfLevel state.level))

/-! ## Auxiliary facts -/

theorem orElse_null_cases (d : Die) :
    d.orElse .null = .null ∨ (d.orElse .null = d ∧ d.truthy = true) := by
  unfold Die.orElse
  cases h : d.truthy
  · left; simp
  · right; simp

theorem orElse_of_truthy (a b : Die) (h : a.truthy = true) : a.orElse b = a := by
  simp [Die.orElse, h]

theorem orElse_of_falsy (a b : Die) (h : a.truthy = false) : a.orElse b = b := by
  simp [Die.orElse, h]

theorem getActorState_die_cases (actor : Actor) :
    (getActorState actor).die = .null ∨ (getActorState actor).die.truthy = true := by
  simp only [getActorState]
  rcases orElse_null_cases
    ((actor.flag.getD Stored.empty).die.orElse
      (LEVEL_DIE_MAP (match (actor.flag.getD Stored.empty).level.getD (.int 0) with
        | .nan => 0
        | .int z => z))) with h | ⟨h, ht⟩
  · left; exact h
  · right; rw [h]; exact ht

theorem getActorState_falsy_iff (actor : Actor) :
    (getActorState actor).die.truthy = false ↔ (getActorState actor).die = .null := by
  constructor
  · intro h
    rcases getActorState_die_cases actor with h1 | h1
    · exact h1
    · rw [h1] at h; cases h
  · intro h; rw [h]; rfl

theorem LEVEL_DIE_MAP_truthy (level : Int) (h0 : 0 ≤ level) (h4 : level ≤ 4) :
    (LEVEL_DIE_MAP level).truthy = true := by
  have h : level = 0 ∨ level = 1 ∨ level = 2 ∨ level = 3 ∨ level = 4 := by omega
  rcases h with h | h | h | h | h <;> subst h <;> decide

theorem LEVEL_DIE_MAP_outside (level : Int) (h : level < 0 ∨ 4 < level) :
    LEVEL_DIE_MAP level = .undefined := by
  unfold LEVEL_DIE_MAP
  rw [if_neg (by omega), if_neg (by omega), if_neg (by omega), if_neg (by omega),
    if_neg (by omega)]

theorem dieOfLevel_inside (level : Int) (h0 : 0 ≤ level) (h4 : level ≤ 4) :
    dieOfLevel level = LEVEL_DIE_MAP level :=
  orElse_of_truthy _ _ (LEVEL_DIE_MAP_truthy level h0 h4)

theorem dieOfLevel_outside (level : Int) (h : level < 0 ∨ 4 < level) :
    dieOfLevel level = .null := by
  unfold dieOfLevel
  rw [LEVEL_DIE_MAP_outside level h]
  rfl

/-! ## Properties of `upgradeLevel` -/

theorem upgradeLevel_ceiling (state : State) (h : 5 ≤ state.level) :
    upgradeLevel state = state := by
  simp [upgradeLevel, h]

theorem upgradeLevel_below (state : State) (h : state.level < 5) :
    (upgradeLevel state).level = state.level + 1 ∧
    (upgradeLevel state).die =
      (if state.level + 1 = 5 then Die.null else LEVEL_DIE_MAP (state.level + 1)) ∧
    (upgradeLevel state).minorMutations = state.minorMutations ∧
    (upgradeLevel state).majorMutations = state.majorMutations := by
  have h5 : ¬ state.level ≥ 5 := by omega
  simp only [upgradeLevel, if_neg h5]
  refine ⟨trivial, ?_, trivial, trivial⟩
  by_cases h4 : state.level + 1 = 5
  · rw [if_pos h4, if_neg (by omega)]
  · rw [if_neg h4, if_pos (by omega)]

theorem upgradeLevel_die_lookup (state : State) (h : state.level < 5)
    (h0 : 0 ≤ state.level + 1) :
    (upgradeLevel state).die = dieOfLevel (state.level + 1) := by
  rw [(upgradeLevel_below state h).2.1]
  by_cases h5 : state.level + 1 = 5
  · rw [if_pos h5, h5]; rfl
  · rw [if_neg h5, dieOfLevel_inside _ h0 (by omega)]

/-- C5: `upgradeLevel` returns its argument when the level is 5 or more; below 5 the level
grows by one, the die becomes the table value of the new level, `null` when the new level
is 5, and both mutation lists are those of the argument. For a new level from 0 to 5 the
table value is the formula of that level or `null`, as the lookup of `getActorState` has it. -/
theorem upgradeLevel_spec (state : State) :
    (5 ≤ state.level → upgradeLevel state = state) ∧
    (state.level < 5 →
      (upgradeLevel state).level = state.level + 1 ∧
      (upgradeLevel state).die =
        (if state.level + 1 = 5 then Die.null else LEVEL_DIE_MAP (state.level + 1)) ∧
      (0 ≤ state.level + 1 → (upgradeLevel state).die = dieOfLevel (state.level + 1)) ∧
      (upgradeLevel state).minorMutations = state.minorMutations ∧
      (upgradeLevel state).majorMutations = state.majorMutations) :=
  ⟨upgradeLevel_ceiling state, fun h =>
    ⟨(upgradeLevel_below state h).1, (upgradeLevel_below state h).2.1,
      upgradeLevel_die_lookup state h, (upgradeLevel_below state h).2.2⟩⟩

/-- C5, at concrete states: level 5 is a fixed point, level 4 loses its die, level 2 moves to
the die of level 3 and keeps its lists. -/
theorem upgradeLevel_spec_witness :
    upgradeLevel ⟨5, .null, ["pale eyes"], []⟩ = ⟨5, .null, ["pale eyes"], []⟩ ∧
    upgradeLevel ⟨4, .formula "1d20", [], [⟨7, "Echoed Voice", ""⟩]⟩ =
      ⟨5, .null, [], [⟨7, "Echoed Voice", ""⟩]⟩ ∧
    (upgradeLevel ⟨2, .formula "1d8", ["pale eyes"], []⟩).level = 2 + 1 ∧
    (upgradeLevel ⟨2, .formula "1d8", ["pale eyes"], []⟩).die = .formula "1d10" ∧
    (upgradeLevel ⟨2, .formula "1d8", ["pale eyes"], []⟩).minorMutations = ["pale eyes"] ∧
    (upgradeLevel ⟨2, .formula "1d8", ["pale eyes"], []⟩).majorMutations = [] :=
  ⟨(upgradeLevel_spec ⟨5, .null, ["pale eyes"], []⟩).1 (by decide),
   by decide,
   ((upgradeLevel_spec ⟨2, .formula "1d8", ["pale eyes"], []⟩).2 (by decide)).1,
   by decide, by decide, by decide⟩

/-! ## Properties of the level-to-die lookup -/

/-- C10, as stated, fails: the table value of level 0 is the roll formula `1d4`, not `d4`,
and that is also the die of the default state. -/
theorem level_die_lookup_counterexample :
    LEVEL_DIE_MAP 0 ≠ Die.formula "d4" ∧ dieOfLevel 0 ≠ Die.formula "d4" ∧
    (getActorState ⟨"Subject", none⟩).die ≠ Die.formula "d4" := by
  decide

/-- C10, amended: the lookup maps levels 0, 1, 2, 3, 4 to the roll formulas `1d4`, `1d6`,
`1d8`, `1d10`, `1d20`; for level 5 and every other level outside 0..4 the table has no value
and the lookup gives `null`; a stored state without a usable die gets the lookup of its
level; a subject with no stored state gets level 0, the die of level 0 and two empty lists. -/
theorem level_die_lookup (name : String) (level : Int) (stored : Stored) :
    (dieOfLevel 0 = .formula "1d4" ∧ dieOfLevel 1 = .formula "1d6" ∧
      dieOfLevel 2 = .formula "1d8" ∧ dieOfLevel 3 = .formula "1d10" ∧
      dieOfLevel 4 = .formula "1d20" ∧ dieOfLevel 5 = .null) ∧
    (0 ≤ level → level ≤ 4 → dieOfLevel level = LEVEL_DIE_MAP level) ∧
    (level < 0 ∨ 4 < level → LEVEL_DIE_MAP level = .undefined ∧ dieOfLevel level = .null) ∧
    (stored.die.truthy = false →
      (getActorState ⟨name, some stored⟩).die =
        dieOfLevel (getActorState ⟨name, some stored⟩).level) ∧
    getActorState ⟨name, none⟩ = ⟨0, dieOfLevel 0, [], []⟩ := by
  refine ⟨by decide, dieOfLevel_inside level, ?_, ?_, rfl⟩
  · intro h
    exact ⟨LEVEL_DIE_MAP_outside level h, dieOfLevel_outside level h⟩
  · intro h
    simp only [getActorState, Option.getD_some, dieOfLevel]
    rw [orElse_of_falsy _ _ h]

/-- C10, amended, at level 7, at level 3 and at a stored state of level 2 whose die is
`null`. -/
theorem level_die_lookup_witness :
    (LEVEL_DIE_MAP 7 = .undefined ∧ dieOfLevel 7 = .null) ∧
    dieOfLevel 3 = LEVEL_DIE_MAP 3 ∧
    (getActorState ⟨"Subject", some ⟨some (.int 2), .null, none, none⟩⟩).die =
      dieOfLevel (getActorState ⟨"Subject", some ⟨some (.int 2), .null, none, none⟩⟩).level ∧
    getActorState ⟨"Subject", none⟩ = ⟨0, dieOfLevel 0, [], []⟩ :=
  ⟨(level_die_lookup "Subject" 7 ⟨some (.int 2), .null, none, none⟩).2.2.1 (by decide),
   (level_die_lookup "Subject" 3 ⟨some (.int 2), .null, none, none⟩).2.1 (by decide) (by decide),
   (level_die_lookup "Subject" 7 ⟨some (.int 2), .null, none, none⟩).2.2.2.1 rfl,
   (level_die_lookup "Subject" 7 ⟨some (.int 2), .null, none, none⟩).2.2.2.2⟩

/-! ## Properties of `majorMutationEntry` -/

/-- C8: `majorMutationEntry` is a total function; an integer id from 1 to 12 gets the entry
the table holds for it, with a name and a description, id 7 is named "Echoed Voice", and
every other id (0, 13, a negative number, `NaN`) gets the fallback entry. -/
theorem majorMutationEntry_total (id : JSNum) :
    (∀ z : Int, 1 ≤ z → z ≤ 12 → id = .int z →
      majorMutationTable id = some (majorMutationEntry id) ∧
      (majorMutationEntry id).name ≠ "" ∧ (majorMutationEntry id).description ≠ "" ∧
      majorMutationEntry id ≠ fallbackEntry) ∧
    ((∀ z : Int, 1 ≤ z → z ≤ 12 → id ≠ .int z) → majorMutationEntry id = fallbackEntry) ∧
    (majorMutationEntry (.int 7)).name = "Echoed Voice" ∧
    [1, 2, 3, 4, 5, 6, 7, 8, 9, 10, 11, 12].map
        (fun z => (majorMutationEntry (.int z)).name) =
      ["Crystalline Armor", "Nebula Lash", "Extra Eyes / Sensory Nodes", "Warped Locomotion",
        "Nebula Pulse", "Voracious Maw", "Echoed Voice", "Phase-Shifted Flesh",
        "Living Crystal Growth", "Nebula-Thickened Blood", "Reality Glitch Aura",
        "Warped Mind Manifest"] ∧
    fallbackEntry.name = "Indescribable Mutation" ∧
    fallbackEntry.description =
      "A mutation beyond easy description manifests upon the subject." := by
  refine ⟨?_, ?_, by decide, by decide, rfl, rfl⟩
  · intro z h1 h12 hid
    subst hid
    have h : z = 1 ∨ z = 2 ∨ z = 3 ∨ z = 4 ∨ z = 5 ∨ z = 6 ∨ z = 7 ∨ z = 8 ∨ z = 9 ∨
        z = 10 ∨ z = 11 ∨ z = 12 := by omega
    rcases h with h | h | h | h | h | h | h | h | h | h | h | h <;> subst h <;> decide
  · intro h
    cases id with
    | nan => rfl
    | int z =>
      have hz : z < 1 ∨ 12 < z := by
        by_contra hc
        exact h z (by omega) (by omega) rfl
      simp only [majorMutationEntry, majorMutationTable]
      rw [if_neg (by omega), if_neg (by omega), if_neg (by omega), if_neg (by omega),
        if_neg (by omega), if_neg (by omega), if_neg (by omega), if_neg (by omega),
        if_neg (by omega), if_neg (by omega), if_neg (by omega), if_neg (by omega)]
      rfl

/-- C8, at id 7 and at the ids 0, 13, -4 and `NaN`. -/
theorem majorMutationEntry_total_witness :
    (majorMutationTable (.int 7) = some (majorMutationEntry (.int 7)) ∧
      (majorMutationEntry (.int 7)).name ≠ "" ∧ (majorMutationEntry (.int 7)).description ≠ "" ∧
      majorMutationEntry (.int 7) ≠ fallbackEntry) ∧
    majorMutationEntry (.int 0) = fallbackEntry ∧
    majorMutationEntry (.int 13) = fallbackEntry ∧
    majorMutationEntry (.int (-4)) = fallbackEntry ∧
    majorMutationEntry .nan = fallbackEntry :=
  ⟨(majorMutationEntry_total (.int 7)).1 7 (by decide) (by decide) rfl,
   (majorMutationEntry_total (.int 0)).2.1 (fun z h1 _ h => by cases h; omega),
   (majorMutationEntry_total (.int 13)).2.1 (fun z _ h12 h => by cases h; omega),
   (majorMutationEntry_total (.int (-4))).2.1 (fun z h1 _ h => by cases h; omega),
   (majorMutationEntry_total .nan).2.1 (fun z _ _ h => by cases h)⟩

/-! ## Properties of `adjustLevel` -/

theorem adjustLevel_written (actor : Actor) (delta : Int) :
    ∃ st : State, adjustLevel (some actor) delta = [st] ∧
      st.level =
        (if (getActorState actor).level + delta < 0 then 0
          else if 5 < (getActorState actor).level + delta then 5
          else (getActorState actor).level + delta) ∧
      0 ≤ st.level ∧ st.level ≤ 5 ∧
      st.die = (if st.level = 5 then Die.null else LEVEL_DIE_MAP st.level) ∧
      st.die = dieOfLevel st.level ∧
      st.minorMutations = (getActorState actor).minorMutations ∧
      st.majorMutations = (getActorState actor).majorMutations := by
  refine ⟨_, rfl, ?_⟩
  simp only [Math.clamped]
  generalize (getActorState actor).level + delta = n
  have hc : Min.min (5 : Int) (Max.max n 0) =
      (if n < 0 then 0 else if 5 < n then 5 else n) := by
    split_ifs <;> omega
  rw [hc]
  generalize hL : (if n < 0 then (0 : Int) else if 5 < n then 5 else n) = L
  have h0 : 0 ≤ L := by rw [← hL]; split_ifs <;> omega
  have h5 : L ≤ 5 := by rw [← hL]; split_ifs <;> omega
  refine ⟨rfl, h0, h5, ?_, ?_, trivial, trivial⟩
  · by_cases h : L = 5
    · rw [if_pos h, if_neg (by omega)]
    · rw [if_neg h, if_pos (by omega)]
  · by_cases h : L = 5
    · rw [if_neg (by omega), h]; rfl
    · rw [if_pos (by omega), dieOfLevel_inside L h0 (by omega)]

/-- C6: `adjustLevel` writes exactly one state; its level is the old level plus delta clamped
to the interval from 0 to 5, its die is the table value of that level, `null` at level 5, and
its mutation lists are those of the state that was read. -/
theorem adjustLevel_spec (actor : Actor) (delta : Int) :
    ∃ st : State, adjustLevel (some actor) delta = [st] ∧
      st.level =
        (if (getActorState actor).level + delta < 0 then 0
          else if 5 < (getActorState actor).level + delta then 5
          else (getActorState actor).level + delta) ∧
      0 ≤ st.level ∧ st.level ≤ 5 ∧
      st.die = (if st.level = 5 then Die.null else LEVEL_DIE_MAP st.level) ∧
      st.die = dieOfLevel st.level ∧
      st.minorMutations = (getActorState actor).minorMutations ∧
      st.majorMutations = (getActorState actor).majorMutations :=
  adjustLevel_written actor delta

/-! ## Properties of `rollForActor` -/

theorem rollForActor_guard_iff (actor : Actor) :
    ((getActorState actor).level ≥ 5 ∨ (getActorState actor).die.truthy = false) ↔
      (5 ≤ (getActorState actor).level ∨ (getActorState actor).die = Die.null) := by
  rw [getActorState_falsy_iff]

theorem rollForActor_of_refused (rng : Die → Int) (actor : Actor)
    (h : 5 ≤ (getActorState actor).level ∨ (getActorState actor).die = Die.null) :
    rollForActor rng (some actor) =
      { notice := some (.info (actor.name ++ " has already succumbed to Midnight Corruption.")),
        rolled := [], levelChanged := false, mutationPrompt := "", written := [],
        returned := none } := by
  have hg := (rollForActor_guard_iff actor).2 h
  simp only [rollForActor]
  rw [if_pos hg]

theorem rollForActor_of_other (rng : Die → Int) (actor : Actor)
    (hlevel : (getActorState actor).level < 5) (hdie : (getActorState actor).die ≠ Die.null)
    (hroll : rng (getActorState actor).die ≠ 1) :
    rollForActor rng (some actor) =
      { notice := none, rolled := [(getActorState actor).die], levelChanged := false,
        mutationPrompt := "", written := [],
        returned := some (rng (getActorState actor).die, getActorState actor) } := by
  have hg : ¬ ((getActorState actor).level ≥ 5 ∨ (getActorState actor).die.truthy = false) := by
    rw [rollForActor_guard_iff]
    rintro (h | h)
    · omega
    · exact hdie h
  simp only [rollForActor]
  rw [if_neg hg, if_neg hroll]

theorem rollForActor_of_one (rng : Die → Int) (actor : Actor)
    (hlevel : (getActorState actor).level < 5) (hdie : (getActorState actor).die ≠ Die.null)
    (hroll : rng (getActorState actor).die = 1) :
    rollForActor rng (some actor) =
      { notice := none, rolled := [(getActorState actor).die], levelChanged := true,
        mutationPrompt :=
          if (getActorState actor).level + 1 = 2 then "Minor mutation triggered (cosmetic)."
          else if (getActorState actor).level + 1 = 3 then
            "Major mutation + mental quirk triggered."
          else if (getActorState actor).level + 1 = 4 then
            "Additional major mutation; mental state worsens."
          else if (getActorState actor).level + 1 = 5 then
            "Subject succumbs to Midnight Corruption and becomes Warped (dead)."
          else "",
        written := [upgradeLevel (getActorState actor)],
        returned := some (1, upgradeLevel (getActorState actor)) } := by
  have hg : ¬ ((getActorState actor).level ≥ 5 ∨ (getActorState actor).die.truthy = false) := by
    rw [rollForActor_guard_iff]
    rintro (h | h)
    · omega
    · exact hdie h
  have hl : (upgradeLevel (getActorState actor)).level = (getActorState actor).level + 1 :=
    (upgradeLevel_below (getActorState actor) hlevel).1
  have hc : decide ((getActorState actor).level + 1 ≠ (getActorState actor).level) = true := by
    simp
  simp only [rollForActor]
  rw [if_neg hg, if_pos hroll]
  simp only [hl, hroll, hc, if_true]

/-- C4: when the loaded state has level 5 or more, or a `null` die, the check is refused
before any draw: no formula is rolled, whatever the random source, nothing is written, no
roll outcome is returned and the only effect is the notice that the subject has already
succumbed. -/
theorem rollForActor_refused (rng : Die → Int) (actor : Actor)
    (h : 5 ≤ (getActorState actor).level ∨ (getActorState actor).die = Die.null) :
    (rollForActor rng (some actor)).rolled = [] ∧
    (rollForActor rng (some actor)).written = [] ∧
    (rollForActor rng (some actor)).returned = none ∧
    (rollForActor rng (some actor)).notice =
      some (.info (actor.name ++ " has already succumbed to Midnight Corruption.")) ∧
    (rollForActor rng (some actor)).levelChanged = false ∧
    (rollForActor rng (some actor)).mutationPrompt = "" ∧
    (∀ rng2 : Die → Int, rollForActor rng2 (some actor) = rollForActor rng (some actor)) := by
  rw [rollForActor_of_refused rng actor h]
  refine ⟨rfl, rfl, rfl, rfl, rfl, rfl, ?_⟩
  intro rng2
  rw [rollForActor_of_refused rng2 actor h]

/-- C4, at a subject stored at level 5 without a die and a random source that would yield 1. -/
theorem rollForActor_refused_witness :
    (rollForActor (fun _ => 1)
      (some ⟨"Subject", some ⟨some (.int 5), .null, none, none⟩⟩)).rolled = [] ∧
    (rollForActor (fun _ => 1)
      (some ⟨"Subject", some ⟨some (.int 5), .null, none, none⟩⟩)).written = [] ∧
    (rollForActor (fun _ => 1)
      (some ⟨"Subject", some ⟨some (.int 5), .null, none, none⟩⟩)).returned = none :=
  have h := rollForActor_refused (fun _ => 1)
    ⟨"Subject", some ⟨some (.int 5), .null, none, none⟩⟩ (Or.inl (by decide))
  ⟨h.1, h.2.1, h.2.2.1⟩

/-- C1: when the loaded state has a level below 5 and a die that is not `null`, a roll total
other than 1 leaves everything as it was: the returned state is the loaded state,
`levelChanged` is false and nothing is written. -/
theorem rollForActor_other_roll (rng : Die → Int) (actor : Actor)
    (hlevel : (getActorState actor).level < 5) (hdie : (getActorState actor).die ≠ Die.null)
    (hroll : rng (getActorState actor).die ≠ 1) :
    (rollForActor rng (some actor)).returned =
      some (rng (getActorState actor).die, getActorState actor) ∧
    (rollForActor rng (some actor)).levelChanged = false ∧
    (rollForActor rng (some actor)).written = [] ∧
    (rollForActor rng (some actor)).mutationPrompt = "" ∧
    (rollForActor rng (some actor)).rolled = [(getActorState actor).die] := by
  rw [rollForActor_of_other rng actor hlevel hdie hroll]
  exact ⟨rfl, rfl, rfl, rfl, rfl⟩

/-- C1, at a subject stored at level 2 with one minor mutation and a roll of 5. -/
theorem rollForActor_other_roll_witness :
    (rollForActor (fun _ => 5)
      (some ⟨"Subject", some ⟨some (.int 2), .formula "1d8", some ["pale eyes"], none⟩⟩)).returned
      = some (5, ⟨2, .formula "1d8", ["pale eyes"], []⟩) ∧
    (rollForActor (fun _ => 5)
      (some ⟨"Subject", some ⟨some (.int 2), .formula "1d8", some ["pale eyes"], none⟩⟩)).levelChanged
      = false ∧
    (rollForActor (fun _ => 5)
      (some ⟨"Subject", some ⟨some (.int 2), .formula "1d8", some ["pale eyes"], none⟩⟩)).written
      = [] :=
  have h := rollForActor_other_roll (fun _ => 5)
    ⟨"Subject", some ⟨some (.int 2), .formula "1d8", some ["pale eyes"], none⟩⟩
    (by decide) (by decide) (by decide)
  ⟨h.1, h.2.1, h.2.2.1⟩

/-- C2: when the loaded state has an integer level from 0 to 4 and a die that is not `null`,
a roll total of exactly 1 yields the state `upgradeLevel` gives: the level is one higher, the
die is the die of the new level, `null` when the new level is 5, both mutation lists are
unchanged, `levelChanged` is true and this state is the one written to the flags. -/
theorem rollForActor_roll_of_one (rng : Die → Int) (actor : Actor)
    (h0 : 0 ≤ (getActorState actor).level) (h4 : (getActorState actor).level ≤ 4)
    (hdie : (getActorState actor).die ≠ Die.null)
    (hroll : rng (getActorState actor).die = 1) :
    (rollForActor rng (some actor)).returned = some (1, upgradeLevel (getActorState actor)) ∧
    (upgradeLevel (getActorState actor)).level = (getActorState actor).level + 1 ∧
    (upgradeLevel (getActorState actor)).die =
      (if (getActorState actor).level + 1 = 5 then Die.null
        else LEVEL_DIE_MAP ((getActorState actor).level + 1)) ∧
    (upgradeLevel (getActorState actor)).die = dieOfLevel ((getActorState actor).level + 1) ∧
    (upgradeLevel (getActorState actor)).minorMutations =
      (getActorState actor).minorMutations ∧
    (upgradeLevel (getActorState actor)).majorMutations =
      (getActorState actor).majorMutations ∧
    (rollForActor rng (some actor)).levelChanged = true ∧
    (rollForActor rng (some actor)).written = [upgradeLevel (getActorState actor)] := by
  have hlevel : (getActorState actor).level < 5 := by omega
  obtain ⟨hl, hd, hmin, hmaj⟩ := upgradeLevel_below (getActorState actor) hlevel
  rw [rollForActor_of_one rng actor hlevel hdie hroll]
  refine ⟨rfl, hl, hd, ?_, hmin, hmaj, rfl, rfl⟩
  rw [hd]
  by_cases h : (getActorState actor).level + 1 = 5
  · rw [if_pos h, h]; rfl
  · rw [if_neg h, dieOfLevel_inside _ (by omega) (by omega)]

/-- C2, at a subject with no stored state (level 0, die `1d4`) and at a subject stored at
level 4, both with a roll of 1. -/
theorem rollForActor_roll_of_one_witness :
    (rollForActor (fun _ => 1) (some ⟨"Subject", none⟩)).returned =
      some (1, ⟨0 + 1, .formula "1d6", [], []⟩) ∧
    (rollForActor (fun _ => 1) (some ⟨"Subject", none⟩)).levelChanged = true ∧
    (rollForActor (fun _ => 1)
      (some ⟨"Subject", some ⟨some (.int 4), .formula "1d20", none, none⟩⟩)).written =
      [⟨4 + 1, .null, [], []⟩] :=
  ⟨(rollForActor_roll_of_one (fun _ => 1) ⟨"Subject", none⟩
      (by decide) (by decide) (by decide) rfl).1,
   (rollForActor_roll_of_one (fun _ => 1) ⟨"Subject", none⟩
      (by decide) (by decide) (by decide) rfl).2.2.2.2.2.2.1,
   (rollForActor_roll_of_one (fun _ => 1)
      ⟨"Subject", some ⟨some (.int 4), .formula "1d20", none, none⟩⟩
      (by decide) (by decide) (by decide) rfl).2.2.2.2.2.2.2⟩

/-- C3: the mutation prompt of a check is fixed by the new level after an upgrade that
changed the level: 2 gives the minor mutation prompt, 3 the major mutation and quirk prompt,
4 the additional major mutation prompt, 5 the terminal prompt, any other new level and any
check without a level change give the empty prompt; the states a check writes or returns
carry the mutation lists of the loaded state. -/
theorem rollForActor_mutation_event (rng : Die → Int) (actor : Actor) :
    ((rollForActor rng (some actor)).levelChanged = true →
      (rollForActor rng (some actor)).returned =
        some (1, upgradeLevel (getActorState actor)) ∧
      (upgradeLevel (getActorState actor)).level = (getActorState actor).level + 1 ∧
      ((upgradeLevel (getActorState actor)).level = 2 →
        (rollForActor rng (some actor)).mutationPrompt =
          "Minor mutation triggered (cosmetic).") ∧
      ((upgradeLevel (getActorState actor)).level = 3 →
        (rollForActor rng (some actor)).mutationPrompt =
          "Major mutation + mental quirk triggered.") ∧
      ((upgradeLevel (getActorState actor)).level = 4 →
        (rollForActor rng (some actor)).mutationPrompt =
          "Additional major mutation; mental state worsens.") ∧
      ((upgradeLevel (getActorState actor)).level = 5 →
        (rollForActor rng (some actor)).mutationPrompt =
          "Subject succumbs to Midnight Corruption and becomes Warped (dead).") ∧
      ((upgradeLevel (getActorState actor)).level < 2 ∨
          5 < (upgradeLevel (getActorState actor)).level →
        (rollForActor rng (some actor)).mutationPrompt = "")) ∧
    ((rollForActor rng (some actor)).levelChanged = false →
      (rollForActor rng (some actor)).mutationPrompt = "") ∧
    (∀ st ∈ (rollForActor rng (some actor)).written,
      st.minorMutations = (getActorState actor).minorMutations ∧
      st.majorMutations = (getActorState actor).majorMutations) ∧
    (∀ (total : Int) (st : State), (rollForActor rng (some actor)).returned = some (total, st) →
      st.minorMutations = (getActorState actor).minorMutations ∧
      st.majorMutations = (getActorState actor).majorMutations) := by
  by_cases href : 5 ≤ (getActorState actor).level ∨ (getActorState actor).die = Die.null
  · rw [rollForActor_of_refused rng actor href]
    refine ⟨fun h => (by cases h), fun _ => rfl, ?_, ?_⟩
    · intro st hst; cases hst
    · intro total st hst; cases hst
  · have hlevel : (getActorState actor).level < 5 := by
      by_contra hc; exact href (Or.inl (by omega))
    have hdie : (getActorState actor).die ≠ Die.null := fun hc => href (Or.inr hc)
    by_cases hroll : rng (getActorState actor).die = 1
    · obtain ⟨hl, -, hmin, hmaj⟩ := upgradeLevel_below (getActorState actor) hlevel
      rw [rollForActor_of_one rng actor hlevel hdie hroll]
      refine ⟨fun _ => ⟨rfl, hl, ?_, ?_, ?_, ?_, ?_⟩, fun h => (by cases h), ?_, ?_⟩
      · intro h; rw [hl] at h; simp only []; rw [if_pos h]
      · intro h; rw [hl] at h; simp only []
        rw [if_neg (by omega), if_pos h]
      · intro h; rw [hl] at h; simp only []
        rw [if_neg (by omega), if_neg (by omega), if_pos h]
      · intro h; rw [hl] at h; simp only []
        rw [if_neg (by omega), if_neg (by omega), if_neg (by omega), if_pos h]
      · intro h; rw [hl] at h; simp only []
        rw [if_neg (by omega), if_neg (by omega), if_neg (by omega), if_neg (by omega)]
      · intro st hst
        rw [List.mem_singleton] at hst
        subst hst
        exact ⟨hmin, hmaj⟩
      · intro total st hst
        simp only [Option.some.injEq, Prod.mk.injEq] at hst
        rw [← hst.2]
        exact ⟨hmin, hmaj⟩
    · rw [rollForActor_of_other rng actor hlevel hdie hroll]
      refine ⟨fun h => (by cases h), fun _ => rfl, ?_, ?_⟩
      · intro st hst; cases hst
      · intro total st hst
        simp only [Option.some.injEq, Prod.mk.injEq] at hst
        rw [← hst.2]
        exact ⟨rfl, rfl⟩

/-- C3, along the successive advances 1 to 2, 2 to 3, 3 to 4 and 4 to 5, and at a roll
that does not advance. -/
theorem rollForActor_mutation_event_witness :
    (rollForActor (fun _ => 1)
      (some ⟨"Subject", some ⟨some (.int 1), .formula "1d6", none, none⟩⟩)).mutationPrompt =
      "Minor mutation triggered (cosmetic)." ∧
    (rollForActor (fun _ => 1)
      (some ⟨"Subject", some ⟨some (.int 2), .formula "1d8", none, none⟩⟩)).mutationPrompt =
      "Major mutation + mental quirk triggered." ∧
    (rollForActor (fun _ => 1)
      (some ⟨"Subject", some ⟨some (.int 3), .formula "1d10", none, none⟩⟩)).mutationPrompt =
      "Additional major mutation; mental state worsens." ∧
    (rollForActor (fun _ => 1)
      (some ⟨"Subject", some ⟨some (.int 4), .formula "1d20", none, none⟩⟩)).mutationPrompt =
      "Subject succumbs to Midnight Corruption and becomes Warped (dead)." ∧
    (rollForActor (fun _ => 1) (some ⟨"Subject", none⟩)).mutationPrompt = "" ∧
    (rollForActor (fun _ => 3)
      (some ⟨"Subject", some ⟨some (.int 1), .formula "1d6", none, none⟩⟩)).mutationPrompt = "" :=
  ⟨((rollForActor_mutation_event (fun _ => 1)
      ⟨"Subject", some ⟨some (.int 1), .formula "1d6", none, none⟩⟩).1 rfl).2.2.1 rfl,
   ((rollForActor_mutation_event (fun _ => 1)
      ⟨"Subject", some ⟨some (.int 2), .formula "1d8", none, none⟩⟩).1 rfl).2.2.2.1 rfl,
   ((rollForActor_mutation_event (fun _ => 1)
      ⟨"Subject", some ⟨some (.int 3), .formula "1d10", none, none⟩⟩).1 rfl).2.2.2.2.1 rfl,
   ((rollForActor_mutation_event (fun _ => 1)
      ⟨"Subject", some ⟨some (.int 4), .formula "1d20", none, none⟩⟩).1 rfl).2.2.2.2.2.1 rfl,
   ((rollForActor_mutation_event (fun _ => 1) ⟨"Subject", none⟩).1 rfl).2.2.2.2.2.2
      (Or.inl (by decide)),
   (rollForActor_mutation_event (fun _ => 3)
      ⟨"Subject", some ⟨some (.int 1), .formula "1d6", none, none⟩⟩).2.1 rfl⟩

/-! ## The die as a function of the level -/

theorem upgradeLevel_consistent (state : State) (h0 : 0 ≤ state.level)
    (hc : Consistent state) : Consistent (upgradeLevel state) := by
  by_cases h5 : 5 ≤ state.level
  · rw [upgradeLevel_ceiling state h5]; exact hc
  · unfold Consistent
    rw [(upgradeLevel_below state (by omega)).1]
    exact upgradeLevel_die_lookup state (by omega) (by omega)

theorem level_of_consistent_die (state : State) (hc : Consistent state)
    (hdie : state.die ≠ Die.null) : 0 ≤ state.level ∧ state.level ≤ 4 := by
  by_contra hcon
  apply hdie
  rw [hc]
  exact dieOfLevel_outside _ (by omega)

/-- C7, as stated, fails: for the stored flag with level 3 and die `1d4` the state
`getActorState` returns keeps the stored die, which is not the die `1d10` of level 3, and
a check on that subject rolls `1d4`. -/
theorem die_follows_level_counterexample :
    (getActorState ⟨"Subject", some ⟨some (.int 3), .formula "1d4", none, none⟩⟩).level = 3 ∧
    (getActorState ⟨"Subject", some ⟨some (.int 3), .formula "1d4", none, none⟩⟩).die =
      .formula "1d4" ∧
    dieOfLevel 3 = .formula "1d10" ∧
    ¬ Consistent
      (getActorState ⟨"Subject", some ⟨some (.int 3), .formula "1d4", none, none⟩⟩) ∧
    (rollForActor (fun _ => 2)
      (some ⟨"Subject", some ⟨some (.int 3), .formula "1d4", none, none⟩⟩)).rolled =
      [.formula "1d4"] := by
  decide

/-- C7, amended: the die equals the lookup of the level in the state `getActorState` returns
for every stored flag whose die is missing, `null` or empty, or already is the lookup of its
level; `upgradeLevel` keeps this at every level from 0 up, `adjustLevel` only writes such
states, and a check on a subject whose loaded state has it rolls the die of the current level
and writes and returns only such states. -/
theorem die_follows_level (rng : Die → Int) (actor : Actor) (state : State) (delta : Int) :
    ((actor.flag.getD Stored.empty).die.truthy = false ∨
        (actor.flag.getD Stored.empty).die = dieOfLevel (getActorState actor).level →
      Consistent (getActorState actor)) ∧
    (0 ≤ state.level → Consistent state → Consistent (upgradeLevel state)) ∧
    (∀ st ∈ adjustLevel (some actor) delta, Consistent st) ∧
    (Consistent (getActorState actor) →
      (∀ d ∈ (rollForActor rng (some actor)).rolled,
        d = dieOfLevel (getActorState actor).level) ∧
      (∀ st ∈ (rollForActor rng (some actor)).written, Consistent st) ∧
      (∀ (total : Int) (st : State),
        (rollForActor rng (some actor)).returned = some (total, st) → Consistent st)) := by
  refine ⟨?_, upgradeLevel_consistent state, ?_, ?_⟩
  · intro h
    by_cases ht : (actor.flag.getD Stored.empty).die.truthy = false
    · unfold Consistent
      simp only [getActorState, dieOfLevel]
      rw [orElse_of_falsy _ _ ht]
    · have ht2 : (actor.flag.getD Stored.empty).die.truthy = true := by
        simpa using ht
      rcases h with h | h
      · exact absurd h ht
      · unfold Consistent
        rw [← h]
        simp only [getActorState]
        rw [orElse_of_truthy _ _ ht2, orElse_of_truthy _ _ ht2]
  · intro st hst
    obtain ⟨w, hw, -, -, -, -, hd, -, -⟩ := adjustLevel_written actor delta
    rw [hw, List.mem_singleton] at hst
    subst hst
    exact hd
  · intro hc
    by_cases href : 5 ≤ (getActorState actor).level ∨ (getActorState actor).die = Die.null
    · rw [rollForActor_of_refused rng actor href]
      refine ⟨?_, ?_, ?_⟩
      · intro d hd; cases hd
      · intro st hst; cases hst
      · intro total st hst; cases hst
    · have hlevel : (getActorState actor).level < 5 := by
        by_contra hcon; exact href (Or.inl (by omega))
      have hdie : (getActorState actor).die ≠ Die.null := fun hcon => href (Or.inr hcon)
      have hrange := level_of_consistent_die _ hc hdie
      by_cases hroll : rng (getActorState actor).die = 1
      · rw [rollForActor_of_one rng actor hlevel hdie hroll]
        refine ⟨?_, ?_, ?_⟩
        · intro d hd
          rw [List.mem_singleton] at hd
          rw [hd]; exact hc
        · intro st hst
          rw [List.mem_singleton] at hst
          subst hst
          exact upgradeLevel_consistent _ hrange.1 hc
        · intro total st hst
          simp only [Option.some.injEq, Prod.mk.injEq] at hst
          rw [← hst.2]
          exact upgradeLevel_consistent _ hrange.1 hc
      · rw [rollForActor_of_other rng actor hlevel hdie hroll]
        refine ⟨?_, ?_, ?_⟩
        · intro d hd
          rw [List.mem_singleton] at hd
          rw [hd]; exact hc
        · intro st hst; cases hst
        · intro total st hst
          simp only [Option.some.injEq, Prod.mk.injEq] at hst
          rw [← hst.2]
          exact hc

/-- C7, amended, at a subject stored at level 3 without a die, with a roll of 1 and an
adjustment by -1. -/
theorem die_follows_level_witness :
    Consistent (getActorState ⟨"Subject", some ⟨some (.int 3), .undefined, none, none⟩⟩) ∧
    Consistent (upgradeLevel ⟨3, .formula "1d10", [], []⟩) ∧
    (∀ st ∈ adjustLevel (some ⟨"Subject", some ⟨some (.int 3), .undefined, none, none⟩⟩) (-1),
      Consistent st) ∧
    (∀ d ∈ (rollForActor (fun _ => 1)
        (some ⟨"Subject", some ⟨some (.int 3), .undefined, none, none⟩⟩)).rolled,
      d = dieOfLevel
        (getActorState ⟨"Subject", some ⟨some (.int 3), .undefined, none, none⟩⟩).level) :=
  ⟨(die_follows_level (fun _ => 1) ⟨"Subject", some ⟨some (.int 3), .undefined, none, none⟩⟩
      ⟨3, .formula "1d10", [], []⟩ (-1)).1 (Or.inl rfl),
   (die_follows_level (fun _ => 1) ⟨"Subject", some ⟨some (.int 3), .undefined, none, none⟩⟩
      ⟨3, .formula "1d10", [], []⟩ (-1)).2.1 (by decide) (by decide),
   (die_follows_level (fun _ => 1) ⟨"Subject", some ⟨some (.int 3), .undefined, none, none⟩⟩
      ⟨3, .formula "1d10", [], []⟩ (-1)).2.2.1,
   ((die_follows_level (fun _ => 1) ⟨"Subject", some ⟨some (.int 3), .undefined, none, none⟩⟩
      ⟨3, .formula "1d10", [], []⟩ (-1)).2.2.2 (by decide)).1⟩

/-! ## Properties of `addMinorMutation` -/

theorem dropWhile_nil_or_head (p : Char → Bool) (cs : List Char) :
    cs.dropWhile p = [] ∨ ∃ c rest, cs.dropWhile p = c :: rest ∧ p c = false := by
  induction cs with
  | nil => left; rfl
  | cons c cs ih =>
    cases hc : p c
    · right
      exact ⟨c, cs, by simp [List.dropWhile, hc], hc⟩
    · simpa [List.dropWhile, hc] using ih

theorem trimChars_eq_nil_iff (cs : List Char) :
    trimChars cs = [] ↔ ∀ c ∈ cs, isTrimChar c = true := by
  unfold trimChars
  rw [List.reverse_eq_nil_iff, List.dropWhile_eq_nil_iff]
  constructor
  · intro h
    rcases dropWhile_nil_or_head isTrimChar cs with h0 | ⟨c, rest, hcr, hc⟩
    · exact List.dropWhile_eq_nil_iff.1 h0
    · have := h c (by rw [hcr]; simp)
      rw [hc] at this
      cases this
  · intro h c hc
    rw [List.mem_reverse] at hc
    have h0 : cs.dropWhile isTrimChar = [] := List.dropWhile_eq_nil_iff.2 h
    rw [h0] at hc
    cases hc

theorem trimChars_split (cs : List Char) :
    ∃ pre post : List Char, cs = pre ++ trimChars cs ++ post ∧
      (∀ c ∈ pre, isTrimChar c = true) ∧ (∀ c ∈ post, isTrimChar c = true) := by
  refine ⟨cs.takeWhile isTrimChar,
    ((cs.dropWhile isTrimChar).reverse.takeWhile isTrimChar).reverse, ?_, ?_, ?_⟩
  · unfold trimChars
    rw [List.append_assoc, ← List.reverse_append, List.takeWhile_append_dropWhile,
      List.reverse_reverse, List.takeWhile_append_dropWhile]
  · intro c hc
    exact List.mem_takeWhile_imp hc
  · intro c hc
    rw [List.mem_reverse] at hc
    exact List.mem_takeWhile_imp hc

theorem trim_eq_empty_iff (text : String) :
    trim text = "" ↔ ∀ c ∈ text.data, isTrimChar c = true := by
  rw [← trimChars_eq_nil_iff]
  unfold trim
  rw [String.ext_iff]

/-- C9, as stated, fails: on a text of three blanks `addMinorMutation` completes without
any error, having written nothing; it does not fail with a `ValidationError`. -/
theorem addMinorMutation_counterexample :
    addMinorMutation (some ⟨"Subject", none⟩) (some "   ") = Except.ok [] ∧
    addMinorMutation (some ⟨"Subject", none⟩) (some "   ") ≠
      Except.error MCError.ValidationError := by
  have h : addMinorMutation (some ⟨"Subject", none⟩) (some "   ") = Except.ok [] := rfl
  refine ⟨h, ?_⟩
  rw [h]
  intro hc
  cases hc

/-- C9, amended: when the text is empty or consists of white space only, that is when its
trimmed form is empty, `addMinorMutation` returns without raising an error and writes
nothing, so the state stays as it was; otherwise it writes one state, the loaded state with
exactly the trimmed text appended as the last element of `minorMutations`, the earlier
entries in order and level, die and `majorMutations` unchanged; the trimmed text is the text
without a leading and a trailing run of white space. -/
theorem addMinorMutation_spec (actor : Actor) (text : String) :
    (trim text = "" ↔ ∀ c ∈ text.data, isTrimChar c = true) ∧
    (∃ pre post : List Char, text.data = pre ++ (trim text).data ++ post ∧
      (∀ c ∈ pre, isTrimChar c = true) ∧ (∀ c ∈ post, isTrimChar c = true)) ∧
    (trim text = "" → addMinorMutation (some actor) (some text) = Except.ok []) ∧
    (trim text ≠ "" →
      ∃ st : State, addMinorMutation (some actor) (some text) = Except.ok [st] ∧
        st.minorMutations = (getActorState actor).minorMutations ++ [trim text] ∧
        st.level = (getActorState actor).level ∧
        st.die = (getActorState actor).die ∧
        st.majorMutations = (getActorState actor).majorMutations) ∧
    addMinorMutation (some actor) none = Except.ok [] := by
  refine ⟨trim_eq_empty_iff text, trimChars_split text.data, ?_, ?_, rfl⟩
  · intro h
    simp only [addMinorMutation]
    rw [if_pos h]
  · intro h
    refine ⟨{ getActorState actor with
      minorMutations := (getActorState actor).minorMutations ++ [trim text] }, ?_,
      rfl, rfl, rfl, rfl⟩
    simp only [addMinorMutation]
    rw [if_neg h]

/-- C9, amended, at the texts of three blanks and of a padded phrase, on a subject that
already has one minor mutation. -/
theorem addMinorMutation_spec_witness :
    addMinorMutation
      (some ⟨"Subject", some ⟨some (.int 2), .formula "1d8", some ["pale eyes"], none⟩⟩)
      (some "   ") = Except.ok [] ∧
    (∃ st : State,
      addMinorMutation
        (some ⟨"Subject", some ⟨some (.int 2), .formula "1d8", some ["pale eyes"], none⟩⟩)
        (some "  glows faintly ") = Except.ok [st] ∧
      st.minorMutations = ["pale eyes"] ++ ["glows faintly"] ∧
      st.level = 2 ∧ st.die = .formula "1d8" ∧ st.majorMutations = []) :=
  ⟨(addMinorMutation_spec
      ⟨"Subject", some ⟨some (.int 2), .formula "1d8", some ["pale eyes"], none⟩⟩
      "   ").2.2.1 (by decide),
   (addMinorMutation_spec
      ⟨"Subject", some ⟨some (.int 2), .formula "1d8", some ["pale eyes"], none⟩⟩
      "  glows faintly ").2.2.2.1 (by decide)⟩

end MidnightCorruption
